import Mathlib

/-!
Verification development for the WanderSphere single-page travel application.

The embedding models the root application component: its data model
(destinations, users, notifications, view states), the pure destination
filter, and the session/action handlers (visited and wishlist toggles,
logout), together with the event-driven state machine the component
implements.  Strings are modelled as lists of characters; the external
authentication/document-store collaborator is modelled by an explicit
outcome parameter (success or a thrown error value), and each handler
reports which collaborator call it made and whether an error escaped it.
-/

namespace WanderSphere

/-- Strings are modelled as lists of characters. -/
abbrev Str := List Char

/-- JavaScript `String.prototype.toLowerCase`, modelled characterwise. -/
def lowerStr (s : Str) : Str := s.map Char.toLower

/-- `leadsWith h n` holds when `n` is a prefix of `h` (helper for the
substring test of JavaScript `String.prototype.includes`). -/
def leadsWith : Str → Str → Bool
  | _, [] => true
  | [], _ :: _ => false
  | a :: as, b :: bs => a == b && leadsWith as bs

/-- JavaScript `String.prototype.includes`: `includesStr h n` holds when
`n` occurs as a contiguous substring of `h`. -/
def includesStr : Str → Str → Bool
  | [], n => leadsWith [] n
  | a :: t, n => leadsWith (a :: t) n || includesStr t n

/-- The closed category union of the `Destination` interface in
`types.ts`. -/
inductive Category where
  | beach | mountain | city | cultural | nature | luxury | history
deriving DecidableEq

/-- The string literal each `Category` value denotes in the source. -/
def Category.name : Category → Str
  | .beach => "Beach".data
  | .mountain => "Mountain".data
  | .city => "City".data
  | .cultural => "Cultural".data
  | .nature => "Nature".data
  | .luxury => "Luxury".data
  | .history => "History".data

/-- The fields of a `Destination` record that the application logic under
study reads (identifier, name, location, price, category); the remaining
fields of the interface are presentational and never inspected by the
filter or the handlers. -/
structure Destination where
  id : Str
  name : Str
  location : Str
  price : Nat
  category : Category
deriving DecidableEq

/-- The category-match clause of the destination filter:
`activeCategory === "All" || d.category === activeCategory ||
(activeCategory === "Budget Friendly" && d.price <= 1500)`. -/
def matchesCategory (activeCategory : Str) (d : Destination) : Bool :=
  activeCategory == "All".data ||
  d.category.name == activeCategory ||
  (activeCategory == "Budget Friendly".data && d.price ≤ 1500)

/-- The free-text clause of the destination filter:
`d.name.toLowerCase().includes(searchTerm.toLowerCase()) ||
d.location.toLowerCase().includes(searchTerm.toLowerCase())`. -/
def matchesSearch (searchTerm : Str) (d : Destination) : Bool :=
  includesStr (lowerStr d.name) (lowerStr searchTerm) ||
  includesStr (lowerStr d.location) (lowerStr searchTerm)

/-- The destination filter of the application, abstracted over the input
list (the source applies it to the static `MOCK_DESTINATIONS` list, which
lives outside the component). -/
def filteredDestinations (destinations : List Destination)
    (searchTerm activeCategory : Str) : List Destination :=
  destinations.filter fun d =>
    matchesCategory activeCategory d && matchesSearch searchTerm d

/-- The matching predicate as the specification phrases it: the category
clause as a disjunction and the search clause as substring containment of
the lowercased term in the lowercased name or location. -/
def specMatches (t c : Str) (d : Destination) : Prop :=
  (c = "All".data ∨ d.category.name = c ∨
    (c = "Budget Friendly".data ∧ d.price ≤ 1500)) ∧
  (lowerStr t <:+: lowerStr d.name ∨ lowerStr t <:+: lowerStr d.location)

instance (t c : Str) (d : Destination) : Decidable (specMatches t c d) := by
  unfold specMatches; infer_instance

theorem leadsWith_iff (h n : Str) : leadsWith h n = true ↔ n <+: h := by
  induction n generalizing h with
  | nil => cases h <;> simp [leadsWith]
  | cons b bs ih =>
    cases h with
    | nil => simp [leadsWith]
    | cons a as =>
      simp only [leadsWith, Bool.and_eq_true, beq_iff_eq, ih,
        List.cons_prefix_cons]
      exact ⟨fun p => ⟨p.1.symm, p.2⟩, fun p => ⟨p.1.symm, p.2⟩⟩

theorem includesStr_iff (h n : Str) : includesStr h n = true ↔ n <:+: h := by
  induction h with
  | nil => simp [includesStr, leadsWith_iff, List.infix_nil, List.prefix_nil]
  | cons a t ih =>
    simp [includesStr, leadsWith_iff, ih, List.infix_cons_iff]

theorem includesStr_nil (h : Str) : includesStr h [] = true := by
  cases h <;> simp [includesStr, leadsWith]

theorem matchesCategory_iff (c : Str) (d : Destination) :
    matchesCategory c d = true ↔
      (c = "All".data ∨ d.category.name = c ∨
        (c = "Budget Friendly".data ∧ d.price ≤ 1500)) := by
  simp [matchesCategory, Bool.or_eq_true, Bool.and_eq_true, or_assoc]

theorem matchesSearch_iff (t : Str) (d : Destination) :
    matchesSearch t d = true ↔
      (lowerStr t <:+: lowerStr d.name ∨ lowerStr t <:+: lowerStr d.location) := by
  simp [matchesSearch, Bool.or_eq_true, includesStr_iff]

theorem matches_eq_specMatches (t c : Str) (d : Destination) :
    (matchesCategory c d && matchesSearch t d) = decide (specMatches t c d) := by
  rw [Bool.eq_iff_iff, Bool.and_eq_true, decide_eq_true_iff]
  rw [matchesCategory_iff, matchesSearch_iff]
  exact Iff.rfl

theorem matchesSearch_empty (d : Destination) : matchesSearch [] d = true := by
  simp [matchesSearch, lowerStr, includesStr_nil]

/-- C1: for every term and active category, the destination filter returns
exactly the ordered sub-sequence of destinations whose category clause
holds (active category is All, or equals the category of the destination,
or is Budget Friendly with price at most 1500) and whose lowercased name
or location contains the lowercased term as a substring; the empty term
matches every destination, and the output is a sublist of the input, so
the original order is preserved. -/
theorem filter_meets_spec_C1 (ds : List Destination) (t c : Str) :
    filteredDestinations ds t c = ds.filter (fun d => decide (specMatches t c d)) ∧
    List.Sublist (filteredDestinations ds t c) ds ∧
    ∀ d, matchesSearch [] d = true := by
  refine ⟨?_, List.filter_sublist ds, matchesSearch_empty⟩
  unfold filteredDestinations
  exact List.filter_congr fun d _ => matches_eq_specMatches t c d

/-- C5: the destination filter is idempotent for every list, term and
category. -/
theorem filter_idempotent_C5 (ds : List Destination) (t c : Str) :
    filteredDestinations (filteredDestinations ds t c) t c =
      filteredDestinations ds t c := by
  unfold filteredDestinations
  simp [List.filter_filter, Bool.and_self]

/-- C6: filtering with active category All and the empty term is the
identity on every destination list. -/
theorem filter_all_empty_identity_C6 (ds : List Destination) :
    filteredDestinations ds [] "All".data = ds := by
  unfold filteredDestinations
  refine List.filter_eq_self.mpr fun d _ => ?_
  simp [matchesCategory, matchesSearch_empty]

/-- No value of the closed category union of `types.ts` prints as the
synthetic filter value Budget Friendly. -/
theorem category_name_ne_budget (cat : Category) :
    (Category.name cat == "Budget Friendly".data) = false := by
  cases cat <;> decide

/-- The Bali Retreat example destination of the specification scenario. -/
def baliRetreat : Destination :=
  { id := "1".data, name := "Bali Retreat".data, location := "Indonesia".data,
    price := 800, category := .beach }

/-- The Swiss Alps example destination of the specification scenario. -/
def swissAlps : Destination :=
  { id := "2".data, name := "Swiss Alps".data, location := "Switzerland".data,
    price := 3000, category := .mountain }

/-- C4: with active category Budget Friendly and the empty term the filter
keeps exactly the destinations priced at most 1500, whatever their own
category field is; on the two-element example list the result is the Bali
destination alone. -/
theorem filter_budget_friendly_C4 :
    (∀ ds : List Destination,
      filteredDestinations ds [] "Budget Friendly".data =
        ds.filter fun d => d.price ≤ 1500) ∧
    filteredDestinations [baliRetreat, swissAlps] [] "Budget Friendly".data =
      [baliRetreat] := by
  have key : ∀ ds : List Destination,
      filteredDestinations ds [] "Budget Friendly".data =
        ds.filter fun d => d.price ≤ 1500 := by
    intro ds
    unfold filteredDestinations
    refine List.filter_congr fun d _ => ?_
    have h1 : ("Budget Friendly".data == "All".data) = false := by decide
    have h2 : ("Budget Friendly".data == "Budget Friendly".data) = true := by
      decide
    rw [matchesSearch_empty, Bool.and_true, matchesCategory,
      category_name_ne_budget, h1, h2]
    simp
  refine ⟨key, ?_⟩
  rw [key]
  decide

/-- The `ViewState` enum of `types.ts`. -/
inductive ViewState where
  | home | explore | details | chatbot | login | register | dashboard
deriving DecidableEq

/-- The notification kinds of the `NotificationType` union. -/
inductive NotifKind where
  | info | success | error
deriving DecidableEq

/-- The global notification state: message text, kind, visibility flag. -/
structure NotifState where
  message : Str
  kind : NotifKind
  isVisible : Bool
deriving DecidableEq

/-- The `User` interface of `types.ts` (the optional creation timestamp is
never read by the component and is omitted). -/
structure User where
  uid : Str
  name : Str
  username : Str
  email : Str
  wishlist : List Str
  visitedPlaces : List Str
deriving DecidableEq

/-- The complete local state of the root component: view, selected
destination, search context, cached user, auth-loading flag and the
notification. -/
structure AppState where
  view : ViewState
  selectedDestination : Option Destination
  searchTerm : Str
  activeCategory : Str
  searchDate : Str
  searchGuests : Str
  user : Option User
  authLoading : Bool
  notification : NotifState
deriving DecidableEq

/-- `showNotification(message, type)`: replace the live notification and
make it visible. -/
def showNotification (st : AppState) (message : Str) (kind : NotifKind) :
    AppState :=
  { st with notification := { message := message, kind := kind, isVisible := true } }

/-- `closeNotification`: keep the previous message and kind, clear only
the visibility flag. -/
def closeNotification (n : NotifState) : NotifState :=
  { n with isVisible := false }

/-- An invocation of one of the asynchronous collaborator operations
either resolves, or rejects with a thrown error value. -/
inductive CollabOutcome where
  | ok
  | err (e : Str)
deriving DecidableEq

/-- Result of running a toggle handler: the new component state, the
arguments of the collaborator toggle call if one was made
(userId, destinationId, current membership flag), and the error that
escaped the handler, if any. -/
structure ToggleResult where
  state : AppState
  collabCall : Option (Str × Str × Bool)
  thrown : Option Str
deriving DecidableEq

/-- The `toggleVisited` handler: with no cached user, route to login and
stop; otherwise call the collaborator with the current membership flag,
show a success notification only when the place was newly added, and on a
rejection catch it and show the failure notification. -/
def toggleVisited (st : AppState) (id : Str) (outcome : CollabOutcome) :
    ToggleResult :=
  match st.user with
  | none =>
    { state := { st with view := .login }, collabCall := none, thrown := none }
  | some u =>
    let isVisited := u.visitedPlaces.contains id
    match outcome with
    | .ok =>
      { state :=
          if isVisited then st
          else showNotification st "Added to your Travel Log!".data .success,
        collabCall := some (u.uid, id, isVisited), thrown := none }
    | .err _ =>
      { state := showNotification st "Failed to update status".data .error,
        collabCall := some (u.uid, id, isVisited), thrown := none }

/-- The `toggleWishlist` handler: with no cached user, route to login and
stop; otherwise call the collaborator with the current membership flag and
show the added or removed notification on success, or catch a rejection
and show the failure notification. -/
def toggleWishlist (st : AppState) (id : Str) (outcome : CollabOutcome) :
    ToggleResult :=
  match st.user with
  | none =>
    { state := { st with view := .login }, collabCall := none, thrown := none }
  | some u =>
    let isWishlisted := u.wishlist.contains id
    match outcome with
    | .ok =>
      { state :=
          if isWishlisted then
            showNotification st "Removed from Wishlist".data .info
          else showNotification st "Added to Wishlist".data .success,
        collabCall := some (u.uid, id, isWishlisted), thrown := none }
    | .err _ =>
      { state := showNotification st "Failed to update wishlist".data .error,
        collabCall := some (u.uid, id, isWishlisted), thrown := none }

/-- Result of running the logout handler: the new component state, whether
the collaborator logout was invoked, and the error that escaped the
handler, if any. -/
structure LogoutResult where
  state : AppState
  collabCalled : Bool
  thrown : Option Str
deriving DecidableEq

/-- The `handleLogout` handler: it awaits the collaborator logout with no
surrounding try/catch, so a rejection escapes before any state update; on
success it clears the user, routes to login and shows the info
notification. -/
def handleLogout (st : AppState) (outcome : CollabOutcome) : LogoutResult :=
  match outcome with
  | .ok =>
    { state := showNotification { st with user := none, view := .login }
        "Logged out successfully".data .info,
      collabCalled := true, thrown := none }
  | .err e => { state := st, collabCalled := true, thrown := some e }

/-- `handleAuthSuccess(user)`: cache the user, route to dashboard, show
the welcome notification. -/
def handleAuthSuccess (st : AppState) (u : User) : AppState :=
  showNotification { st with user := some u, view := .dashboard }
    ("Welcome back, ".data ++ u.name ++ "!".data) .success

/-- What `renderContent` produces for the current state. -/
inductive Rendered where
  | loginScreen | registerScreen | chatbotScreen
  | detailsScreen (d : Destination)
  | dashboardScreen | exploreScreen | homeScreen
  | redirecting
deriving DecidableEq

/-- The `renderContent` branch on the view state; in the details case with
no selected destination the component falls back to `setView(EXPLORE)`,
modelled as a state change plus a redirect marker. -/
def renderContent (st : AppState) : AppState × Rendered :=
  match st.view with
  | .login => (st, .loginScreen)
  | .register => (st, .registerScreen)
  | .chatbot => (st, .chatbotScreen)
  | .details =>
    match st.selectedDestination with
    | some d => (st, .detailsScreen d)
    | none => ({ st with view := .explore }, .redirecting)
  | .dashboard => (st, .dashboardScreen)
  | .explore => (st, .exploreScreen)
  | .home => (st, .homeScreen)

/-- A sample authenticated user with destination 1 on the wishlist. -/
def sampleUser : User :=
  { uid := "u1".data, name := "Ada".data, username := "ada".data,
    email := "ada@mail".data, wishlist := ["1".data], visitedPlaces := [] }

/-- The initial component state: home view, nothing selected, empty search
context, category All, no user, auth still loading, hidden empty
notification. -/
def initState : AppState :=
  { view := .home, selectedDestination := none, searchTerm := [],
    activeCategory := "All".data, searchDate := [], searchGuests := [],
    user := none, authLoading := true,
    notification := { message := [], kind := .info, isVisible := false } }

/-- The initial state with the sample user cached. -/
def loggedInState : AppState := { initState with user := some sampleUser }

/-- C2, counterexample: the claim says a throwing collaborator logout is
caught by `handleLogout` and converted into a user-visible error
notification; on the concrete logged-in state with a collaborator logout
rejecting with the value network, the error escapes the handler and no
notification becomes visible. -/
theorem logout_error_escapes_C2 :
    (handleLogout loggedInState (.err "network".data)).thrown =
      some "network".data ∧
    (handleLogout loggedInState (.err "network".data)).state.notification.isVisible
      = false := by
  decide

/-- C2, amended: errors thrown by the collaborator toggle operations are
caught inside `toggleVisited` and `toggleWishlist`, converted into the
respective user-visible error notification, and never escape the handler,
with the cached user unchanged; a throwing collaborator logout, however,
escapes `handleLogout` uncaught and leaves the whole component state
(cached user included) unchanged, with no notification emitted. -/
theorem handler_errors_C2 (st : AppState) (id e : Str) (u : User)
    (h : st.user = some u) :
    (toggleVisited st id (.err e)).thrown = none ∧
    (toggleVisited st id (.err e)).state.notification =
      { message := "Failed to update status".data, kind := .error,
        isVisible := true } ∧
    (toggleVisited st id (.err e)).state.user = st.user ∧
    (toggleWishlist st id (.err e)).thrown = none ∧
    (toggleWishlist st id (.err e)).state.notification =
      { message := "Failed to update wishlist".data, kind := .error,
        isVisible := true } ∧
    (toggleWishlist st id (.err e)).state.user = st.user ∧
    (handleLogout st (.err e)).thrown = some e ∧
    (handleLogout st (.err e)).state = st := by
  simp [toggleVisited, toggleWishlist, handleLogout, showNotification, h]

theorem handler_errors_C2_witness :
    (toggleVisited loggedInState "1".data (.err "network".data)).thrown = none ∧
    (toggleVisited loggedInState "1".data (.err "network".data)).state.notification =
      { message := "Failed to update status".data, kind := .error,
        isVisible := true } ∧
    (toggleVisited loggedInState "1".data (.err "network".data)).state.user =
      loggedInState.user ∧
    (toggleWishlist loggedInState "1".data (.err "network".data)).thrown = none ∧
    (toggleWishlist loggedInState "1".data (.err "network".data)).state.notification =
      { message := "Failed to update wishlist".data, kind := .error,
        isVisible := true } ∧
    (toggleWishlist loggedInState "1".data (.err "network".data)).state.user =
      loggedInState.user ∧
    (handleLogout loggedInState (.err "network".data)).thrown =
      some "network".data ∧
    (handleLogout loggedInState (.err "network".data)).state = loggedInState :=
  handler_errors_C2 loggedInState "1".data "network".data sampleUser rfl

/-- C3: with no cached user, either toggle handler makes no collaborator
call, throws nothing, and changes the state only by setting the view to
login. -/
theorem toggles_unauthenticated_C3 (st : AppState) (id : Str)
    (outcome : CollabOutcome) (h : st.user = none) :
    toggleVisited st id outcome =
      { state := { st with view := .login }, collabCall := none,
        thrown := none } ∧
    toggleWishlist st id outcome =
      { state := { st with view := .login }, collabCall := none,
        thrown := none } := by
  simp [toggleVisited, toggleWishlist, h]

theorem toggles_unauthenticated_C3_witness :
    toggleVisited initState "1".data .ok =
      { state := { initState with view := .login }, collabCall := none,
        thrown := none } ∧
    toggleWishlist initState "1".data .ok =
      { state := { initState with view := .login }, collabCall := none,
        thrown := none } :=
  toggles_unauthenticated_C3 initState "1".data .ok rfl

/-- C7: for an authenticated user, `toggleWishlist` invokes the
collaborator with the current membership flag; on success a destination
already on the wishlist yields the removed notification of kind info, and
one not on the wishlist yields the added notification of kind success. -/
theorem wishlist_toggle_C7 (st : AppState) (id : Str) (u : User)
    (h : st.user = some u) :
    (u.wishlist.contains id = true →
      (toggleWishlist st id .ok).collabCall = some (u.uid, id, true) ∧
      (toggleWishlist st id .ok).state.notification =
        { message := "Removed from Wishlist".data, kind := .info,
          isVisible := true }) ∧
    (u.wishlist.contains id = false →
      (toggleWishlist st id .ok).collabCall = some (u.uid, id, false) ∧
      (toggleWishlist st id .ok).state.notification =
        { message := "Added to Wishlist".data, kind := .success,
          isVisible := true }) := by
  constructor <;> intro hw
  · have hm : id ∈ u.wishlist := by simpa using hw
    simp [toggleWishlist, showNotification, h, hm]
  · have hm : id ∉ u.wishlist := by simpa using hw
    simp [toggleWishlist, showNotification, h, hm]

theorem wishlist_toggle_C7_witness :
    (toggleWishlist loggedInState "1".data .ok).collabCall =
      some ("u1".data, "1".data, true) ∧
    (toggleWishlist loggedInState "1".data .ok).state.notification =
      { message := "Removed from Wishlist".data, kind := .info,
        isVisible := true } :=
  (wishlist_toggle_C7 loggedInState "1".data sampleUser rfl).1 (by decide)

/-- C8: entering the details view while no destination is selected makes
`renderContent` silently redirect to the explore view: the state changes
only in its view field (so the notification in particular is untouched and
no error is surfaced) and the render result is the redirect marker. -/
theorem details_fallback_C8 (st : AppState) (hv : st.view = .details)
    (hd : st.selectedDestination = none) :
    renderContent st = ({ st with view := .explore }, .redirecting) := by
  simp [renderContent, hv, hd]

theorem details_fallback_C8_witness :
    renderContent { initState with view := .details } =
      ({ initState with view := .explore }, .redirecting) := by
  have h := details_fallback_C8 { initState with view := .details } rfl rfl
  exact h

/-- C10: `closeNotification` only clears the visibility flag; the message
text and the kind of every prior notification state are unchanged. -/
theorem close_notification_frame_C10 (n : NotifState) :
    (closeNotification n).message = n.message ∧
    (closeNotification n).kind = n.kind ∧
    (closeNotification n).isVisible = false :=
  ⟨rfl, rfl, rfl⟩

/-- The fixed category list rendered as filter buttons. -/
def CATEGORIES : List Str :=
  ["All".data, "Beach".data, "Mountain".data, "City".data, "Cultural".data,
   "Nature".data, "Luxury".data, "Budget Friendly".data]

/-- Every discrete event the root component reacts to.  The category
buttons are rendered by mapping over the fixed category list, so a
category selection carries an index into that list; the reset button sets
the term to empty and the category to All; notifications from child
components arrive through the `notify` callback. -/
inductive Event where
  | navigate (v : ViewState)
  | destinationClick (d : Destination)
  | editSearchTerm (t : Str)
  | selectCategory (i : Fin CATEGORIES.length)
  | resetFilters
  | clearSearch
  | editSearchDate (s : Str)
  | editSearchGuests (s : Str)
  | authChanged (u : Option User)
  | authSuccess (u : User)
  | visitedToggle (id : Str) (outcome : CollabOutcome)
  | wishlistToggle (id : Str) (outcome : CollabOutcome)
  | logoutClick (outcome : CollabOutcome)
  | bookingSuccess
  | notify (m : Str) (k : NotifKind)
  | notifClose
  | detailsFallback

/-- The state transition each event performs in the component. -/
def step (st : AppState) : Event → AppState
  | .navigate v => { st with view := v }
  | .destinationClick d =>
    { st with selectedDestination := some d, view := .details }
  | .editSearchTerm t => { st with searchTerm := t }
  | .selectCategory i => { st with activeCategory := CATEGORIES.get i }
  | .resetFilters => { st with searchTerm := [], activeCategory := "All".data }
  | .clearSearch => { st with searchTerm := [] }
  | .editSearchDate s => { st with searchDate := s }
  | .editSearchGuests s => { st with searchGuests := s }
  | .authChanged u => { st with user := u, authLoading := false }
  | .authSuccess u => handleAuthSuccess st u
  | .visitedToggle id outcome => (toggleVisited st id outcome).state
  | .wishlistToggle id outcome => (toggleWishlist st id outcome).state
  | .logoutClick outcome => (handleLogout st outcome).state
  | .bookingSuccess =>
    showNotification { st with view := .dashboard }
      "Adventure Booked! Packing your bags...".data .success
  | .notify m k => showNotification st m k
  | .notifClose => { st with notification := closeNotification st.notification }
  | .detailsFallback => (renderContent st).1

/-- The states the component can be in: the initial state and everything
obtained from it by responding to events. -/
inductive Reachable : AppState → Prop where
  | base : Reachable initState
  | next {st : AppState} : Reachable st → ∀ e, Reachable (step st e)

theorem toggleVisited_activeCategory (st : AppState) (id : Str)
    (outcome : CollabOutcome) :
    (toggleVisited st id outcome).state.activeCategory = st.activeCategory := by
  unfold toggleVisited
  cases h : st.user with
  | none => rfl
  | some u =>
    cases outcome with
    | ok =>
      dsimp only
      split <;> rfl
    | err e => rfl

theorem toggleWishlist_activeCategory (st : AppState) (id : Str)
    (outcome : CollabOutcome) :
    (toggleWishlist st id outcome).state.activeCategory = st.activeCategory := by
  unfold toggleWishlist
  cases h : st.user with
  | none => rfl
  | some u =>
    cases outcome with
    | ok =>
      dsimp only
      split <;> rfl
    | err e => rfl

theorem handleLogout_activeCategory (st : AppState) (outcome : CollabOutcome) :
    (handleLogout st outcome).state.activeCategory = st.activeCategory := by
  cases outcome <;> simp [handleLogout, showNotification]

theorem renderContent_activeCategory (st : AppState) :
    (renderContent st).1.activeCategory = st.activeCategory := by
  cases h : st.view <;> simp [renderContent, h]
  cases hd : st.selectedDestination <;> simp [hd]

/-- C9: in every reachable component state the active category is a member
of the fixed category list; it starts as All and every event either leaves
it alone or sets it to an element of the list. -/
theorem active_category_invariant_C9 (st : AppState) (h : Reachable st) :
    st.activeCategory ∈ CATEGORIES := by
  induction h with
  | base => decide
  | next hr e ih =>
    rename_i st'
    cases e with
    | selectCategory i =>
      simp only [step]
      exact List.get_mem CATEGORIES i.1 i.2
    | resetFilters => simp [step, CATEGORIES]
    | authSuccess u => simpa [step, handleAuthSuccess, showNotification] using ih
    | visitedToggle id outcome =>
      simpa [step, toggleVisited_activeCategory] using ih
    | wishlistToggle id outcome =>
      simpa [step, toggleWishlist_activeCategory] using ih
    | logoutClick outcome =>
      simpa [step, handleLogout_activeCategory] using ih
    | bookingSuccess => simpa [step, showNotification] using ih
    | notify m k => simpa [step, showNotification] using ih
    | detailsFallback =>
      simpa [step, renderContent_activeCategory] using ih
    | _ => simpa [step] using ih

theorem active_category_invariant_C9_witness :
    (step initState (.selectCategory ⟨7, by decide⟩)).activeCategory ∈
      CATEGORIES :=
  active_category_invariant_C9 _ (Reachable.next Reachable.base _)

end WanderSphere
